import Mathlib

/-!
Verification of the position and signal lifecycle engine.

Shallow embedding of the trading core: the order executor
(src/trading/executor.py), the position manager
(src/trading/position_manager.py), the decision handlers
(src/telegram/handlers.py) and the adaptive risk controller (main.py).
Prices and amounts are Python floats in the source; they are modelled as
rationals.  Gateway calls (balance, ticker, order placement) are modelled
as explicit inputs: an Option value for a fetch that can fail, and a
success flag per order placement.
-/

/-- Signal lifecycle states, from SignalStatus in src/database/models.py. -/
inductive SignalStatus where
  | PENDING
  | ACCEPTED
  | REJECTED
  | EXPIRED
  | EXECUTED
deriving DecidableEq, Repr

/-- Position lifecycle states, from PositionStatus in src/database/models.py. -/
inductive PositionStatus where
  | OPEN
  | PARTIAL_TP1
  | PARTIAL_TP2
  | CLOSED_TP
  | CLOSED_SL
  | CLOSED_MANUAL
deriving DecidableEq, Repr

/-- Trade reason codes used by the executor and position manager. -/
inductive Reason where
  | SIGNAL
  | TP1
  | TP2
  | TP3
  | SL
  | TRAILING
  | MANUAL
  | MANUAL_EXTERNAL
deriving DecidableEq, Repr

/-- Order side of a trade record. -/
inductive Side where
  | BUY
  | SELL
deriving DecidableEq, Repr

/-- A Position row (src/database/models.py).  Timestamps are omitted;
nullable numeric columns are Options. -/
structure Position where
  entry_price : ℚ
  entry_amount : ℚ
  entry_value_usdt : ℚ
  current_amount : ℚ
  realized_pnl : ℚ
  stop_loss : ℚ
  tp1 : ℚ
  tp2 : ℚ
  trailing_stop : Option ℚ
  max_price : Option ℚ
  status : PositionStatus
  close_price : Option ℚ
  close_reason : Option Reason
  total_pnl_usdt : Option ℚ
  total_pnl_pct : Option ℚ
deriving DecidableEq, Repr

/-- A Trade row (src/database/models.py); pnl fields are set for sells only. -/
structure TradeRec where
  side : Side
  price : ℚ
  amount : ℚ
  value_usdt : ℚ
  reason : Reason
  pnl_usdt : Option ℚ
  pnl_pct : Option ℚ
deriving DecidableEq, Repr

/-- The result of placing an order at the gateway (ccxt order dict); the
executor only checks the object for presence and reads its id, never the
filled amount. -/
structure Order where
  filled : ℚ
deriving DecidableEq, Repr

/-- Exchange environment for one position-manager pass: the total balance
of the base asset as reported by get_balance (none when the asset is
absent from the response), the last price from get_ticker (none when the
fetch fails), and whether the sell order placed for a given reason is
accepted by the gateway. -/
structure Env where
  balanceTotal : Option ℚ
  ticker : Option ℚ
  sellOk : Reason → Bool

/-- RISK_MANAGEMENT from src/config.py: fraction of the position closed at TP1. -/
def tp1_close_pct : ℚ := 30 / 100

/-- RISK_MANAGEMENT from src/config.py: fraction closed at TP2 (of the original). -/
def tp2_close_pct : ℚ := 30 / 100

/-- RISK_MANAGEMENT from src/config.py: fraction of the free balance used per trade. -/
def position_size_pct : ℚ := 10 / 100

/-- RISK_MANAGEMENT from src/config.py: maximum loss fraction per trade. -/
def max_risk_per_trade : ℚ := 1 / 100

/-- Whether a position status is terminal, as listed in execute_sell. -/
def PositionStatus.isClosed : PositionStatus → Bool
  | .CLOSED_TP => true
  | .CLOSED_SL => true
  | .CLOSED_MANUAL => true
  | _ => false

/-- OrderExecutor._get_close_status from src/trading/executor.py. -/
def get_close_status : Reason → PositionStatus
  | .TP1 => .CLOSED_TP
  | .TP2 => .CLOSED_TP
  | .TP3 => .CLOSED_TP
  | .TRAILING => .CLOSED_TP
  | .SL => .CLOSED_SL
  | _ => .CLOSED_MANUAL

/-- OrderExecutor.execute_sell from src/trading/executor.py.  Returns the
recorded trade and the updated position, or none when the position is
already closed or the order placement fails.  The requested amount is
clamped to the remaining amount; the price is the ticker price, falling
back to the entry price when the ticker fetch fails. -/
def execute_sell (p : Position) (amount : ℚ) (reason : Reason) (env : Env) :
    Option (TradeRec × Position) :=
  if p.status.isClosed then none
  else
    let sell_amount := min amount p.current_amount
    let current_price := env.ticker.getD p.entry_price
    if env.sellOk reason then
      let sell_value := sell_amount * current_price
      let entry_value := sell_amount * p.entry_price
      let pnl_usdt := sell_value - entry_value
      let pnl_pct := (current_price / p.entry_price - 1) * 100
      let new_amount := p.current_amount - sell_amount
      let realized := p.realized_pnl + pnl_usdt
      let trade : TradeRec :=
        { side := Side.SELL, price := current_price, amount := sell_amount
          value_usdt := sell_value, reason := reason
          pnl_usdt := some pnl_usdt, pnl_pct := some pnl_pct }
      if new_amount ≤ 1 / 10000 then
        some (trade,
          { p with
            current_amount := new_amount, realized_pnl := realized
            status := get_close_status reason, close_price := some current_price
            close_reason := some reason, total_pnl_usdt := some realized
            total_pnl_pct := some (realized / p.entry_value_usdt * 100) })
      else if reason = Reason.TP1 then
        some (trade,
          { p with
            current_amount := new_amount, realized_pnl := realized
            status := PositionStatus.PARTIAL_TP1 })
      else if reason = Reason.TP2 then
        some (trade,
          { p with
            current_amount := new_amount, realized_pnl := realized
            status := PositionStatus.PARTIAL_TP2 })
      else
        some (trade,
          { p with current_amount := new_amount, realized_pnl := realized })
    else none

/-- A sequence of execute_sell calls applied to one position; a failed
call leaves the position unchanged, exactly as in the source where a
failed order writes nothing to the store. -/
def applySells (p : Position) (calls : List (ℚ × Reason × Env)) : Position :=
  calls.foldl
    (fun q c =>
      match execute_sell q c.1 c.2.1 c.2.2 with
      | some r => r.2
      | none => q)
    p

/-- A Signal row (src/database/models.py): detection price, computed
levels and lifecycle status.  decided_at is an abstract timestamp. -/
structure SignalRec where
  price : ℚ
  entry_price : ℚ
  stop_loss : ℚ
  tp1 : ℚ
  tp2 : ℚ
  status : SignalStatus
  decided_at : Option ℕ
deriving DecidableEq, Repr

/-- Position sizing in execute_buy_from_signal (src/trading/executor.py,
lines 50-60): the base notional is the override clamped to the free
balance when a positive override is given, else a fixed fraction of the
free balance; when the per-trade risk fraction exceeds the cap, the
notional is replaced by max_loss / risk_pct. -/
def baseNotional (usdt_free : ℚ) (override : Option ℚ) : ℚ :=
  match override with
  | some v => if v > 0 then min v usdt_free else usdt_free * position_size_pct
  | none => usdt_free * position_size_pct

/-- The risk cap of execute_buy_from_signal (src/trading/executor.py,
lines 55-60): when the per-trade risk fraction exceeds the cap, the
notional is replaced by max_loss / risk_pct. -/
def positionSizeUsdt (usdt_free : ℚ) (override : Option ℚ)
    (entry_price stop_loss : ℚ) : ℚ :=
  let base := baseNotional usdt_free override
  let risk_pct := (entry_price - stop_loss) / entry_price
  if risk_pct > max_risk_per_trade then usdt_free * max_risk_per_trade / risk_pct
  else base

/-- The Position row created by execute_buy_from_signal on order success:
the recorded amount is the requested notional divided by the entry price;
the filled amount of the order is never read. -/
def buyPosition (s : SignalRec) (usdt_free : ℚ) (override : Option ℚ) : Position :=
  let size := positionSizeUsdt usdt_free override s.entry_price s.stop_loss
  { entry_price := s.entry_price, entry_amount := size / s.entry_price
    entry_value_usdt := size, current_amount := size / s.entry_price
    realized_pnl := 0, stop_loss := s.stop_loss, tp1 := s.tp1, tp2 := s.tp2
    trailing_stop := none, max_price := none, status := PositionStatus.OPEN
    close_price := none, close_reason := none
    total_pnl_usdt := none, total_pnl_pct := none }

/-- The buy Trade row created by execute_buy_from_signal on order
success; its amount and value are the requested ones. -/
def buyTrade (s : SignalRec) (usdt_free : ℚ) (override : Option ℚ) : TradeRec :=
  let size := positionSizeUsdt usdt_free override s.entry_price s.stop_loss
  { side := Side.BUY, price := s.entry_price, amount := size / s.entry_price
    value_usdt := size, reason := Reason.SIGNAL
    pnl_usdt := none, pnl_pct := none }

/-- Result of execute_buy_from_signal. -/
inductive BuyOutcome where
  | notAccepted
  | insufficientFunds
  | orderFailed
  | opened (pos : Position) (trade : TradeRec)
deriving DecidableEq, Repr

/-- Whether a buy outcome created a position. -/
def BuyOutcome.isOpened : BuyOutcome → Bool
  | .opened _ _ => true
  | _ => false

/-- The amount recorded on the buy trade of an opened outcome. -/
def BuyOutcome.tradeAmount : BuyOutcome → Option ℚ
  | .opened _ t => some t.amount
  | _ => none

/-- OrderExecutor.execute_buy_from_signal (src/trading/executor.py).  The
signal must be in status ACCEPTED; a free balance under 10 USDT places no
order; a failed order placement creates nothing and leaves the signal
status unchanged; a returned order object creates the Position and Trade
rows and marks the signal EXECUTED, regardless of the order fill.  The
second component is the resulting signal status. -/
def execute_buy_from_signal (s : SignalRec) (usdt_free : ℚ) (override : Option ℚ)
    (orderResult : Option Order) : BuyOutcome × SignalStatus :=
  if s.status ≠ SignalStatus.ACCEPTED then (BuyOutcome.notAccepted, s.status)
  else if usdt_free < 10 then (BuyOutcome.insufficientFunds, s.status)
  else
    match orderResult with
    | none => (BuyOutcome.orderFailed, s.status)
    | some _ =>
      (BuyOutcome.opened (buyPosition s usdt_free override) (buyTrade s usdt_free override),
       SignalStatus.EXECUTED)

/-- The dust threshold of the reconciliation check in
PositionManager._check_position (src/trading/position_manager.py line 76). -/
def dustThreshold (current_amount : ℚ) : ℚ := max (1 / 10) (current_amount * (5 / 100))

/-- PositionManager._update_trailing (src/trading/position_manager.py):
raise the high-water mark to the current price, and once the position is
in PARTIAL_TP2 arm or tighten the trailing stop at 97 percent of the
high-water mark. -/
def update_trailing (p : Position) (current_price : ℚ) : Position :=
  let maxp :=
    match p.max_price with
    | none => current_price
    | some m => if current_price > m then current_price else m
  if p.status = PositionStatus.PARTIAL_TP2 then
    let new_trailing := maxp * (97 / 100)
    match p.trailing_stop with
    | none => { p with max_price := some maxp, trailing_stop := some new_trailing }
    | some t =>
      if new_trailing > t then
        { p with max_price := some maxp, trailing_stop := some new_trailing }
      else { p with max_price := some maxp }
  else { p with max_price := some maxp }

/-- The structured action a position check returns to the caller. -/
inductive ActionKind where
  | SYNC_CLOSED
  | SL
  | TP1
  | TP2
  | TRAILING
deriving DecidableEq, Repr

/-- The action dict built by _check_position for the notification layer. -/
structure TickAction where
  kind : ActionKind
  price : ℚ
  amount : ℚ
  pnl_usdt : ℚ
  pnl_pct : ℚ
deriving DecidableEq, Repr

/-- Builds the action dict from a sell trade result, as _check_position
copies the executor result fields into its returned dict. -/
def tradeAction (k : ActionKind) (t : TradeRec) : TickAction :=
  { kind := k, price := t.price, amount := t.amount
    pnl_usdt := t.pnl_usdt.getD 0, pnl_pct := t.pnl_pct.getD 0 }

/-- The SL, TP1, TP2 and trailing checks of _check_position, sharing the
source control flow: each block returns only when its sell order
succeeds, otherwise evaluation falls through to the next check.  All
conditions read the snapshot p taken at the start of the tick; sells
apply to the store state p1 already updated by _update_trailing.  A
position in PARTIAL_TP2 whose snapshot trailing stop is still unset hits
the comparison of None with 0 in the source, which raises and is caught
by the surrounding handler: no action is returned but the store keeps
the updates already committed. -/
def check_position_price (p p1 : Position) (current_price : ℚ) (env : Env) :
    Position × Option (TradeRec × TickAction) :=
  match (if current_price ≤ p.stop_loss then
           execute_sell p1 p.current_amount Reason.SL env
         else none) with
  | some (t, p2) => (p2, some (t, tradeAction ActionKind.SL t))
  | none =>
  match (if p.status = PositionStatus.OPEN ∧ current_price ≥ p.tp1 then
           execute_sell p1 (p.current_amount * tp1_close_pct) Reason.TP1 env
         else none) with
  | some (t, p2) => (p2, some (t, tradeAction ActionKind.TP1 t))
  | none =>
  match (if p.status = PositionStatus.PARTIAL_TP1 ∧ current_price ≥ p.tp2 then
           execute_sell p1 (p.current_amount * (tp2_close_pct / (7 / 10))) Reason.TP2 env
         else none) with
  | some (t, p2) => (p2, some (t, tradeAction ActionKind.TP2 t))
  | none =>
    if p.status = PositionStatus.PARTIAL_TP2 then
      match p.trailing_stop with
      | none => (p1, none)
      | some trailing =>
        if trailing > 0 ∧ current_price ≤ trailing then
          match execute_sell p1 p.current_amount Reason.TRAILING env with
          | some (t, p2) => (p2, some (t, tradeAction ActionKind.TRAILING t))
          | none => (p1, none)
        else (p1, none)
    else (p1, none)

/-- PositionManager._check_position (src/trading/position_manager.py).
First the reconciliation check: when the exchange balance of the base
asset is below the dust threshold, the position is finalized as closed
manually with a synthesized MANUAL_EXTERNAL sell trade over the full
tracked amount, before any level is consulted.  Otherwise a missing
ticker ends the tick, and the SL, TP1, TP2 and trailing checks run on
the ticker price. -/
def check_position (p : Position) (env : Env) : Position × Option (TradeRec × TickAction) :=
  if env.balanceTotal.getD 0 < dustThreshold p.current_amount then
    let current_price := env.ticker.getD p.entry_price
    let pnl_usdt := (current_price - p.entry_price) * p.current_amount
    let pnl_pct := (current_price / p.entry_price - 1) * 100
    ({ p with
       status := PositionStatus.CLOSED_MANUAL, close_price := some current_price
       close_reason := some Reason.MANUAL_EXTERNAL, total_pnl_usdt := some pnl_usdt },
     some ({ side := Side.SELL, price := current_price, amount := p.current_amount
             value_usdt := p.current_amount * current_price
             reason := Reason.MANUAL_EXTERNAL
             pnl_usdt := some pnl_usdt, pnl_pct := some pnl_pct },
           { kind := ActionKind.SYNC_CLOSED, price := current_price
             amount := p.current_amount, pnl_usdt := pnl_usdt, pnl_pct := pnl_pct }))
  else
    match env.ticker with
    | none => (p, none)
    | some current_price =>
      check_position_price p (update_trailing p current_price) current_price env

/-- Successive position-manager ticks over one position. -/
def runTicks (p : Position) (envs : List Env) : Position :=
  envs.foldl (fun q e => (check_position q e).1) p

/-- The slice of DailyStats touched by the decision handlers. -/
structure DailyStatsRec where
  signals_accepted : ℕ
  signals_rejected : ℕ
deriving DecidableEq, Repr

/-- The user-visible reply of the buy decision step. -/
inductive BuyReply where
  | notFound
  | alreadyProcessed (st : SignalStatus)
  | priceMoved (diff : ℚ)
  | accepted
deriving DecidableEq, Repr

/-- The decision step of handle_buy_signal (src/telegram/handlers.py,
lines 389-431): a missing signal or one no longer PENDING is reported
unchanged; otherwise the current price defaults to the detection price
when no exchange is configured or the ticker fetch fails, and a relative
rise above one percent expires the signal; otherwise the signal is
accepted, decided_at is set and the daily counter incremented.  Only the
accepted reply proceeds to order creation. -/
def handle_buy_signal (sig : Option SignalRec) (ticker : Option ℚ)
    (stats : DailyStatsRec) (now : ℕ) :
    Option SignalRec × DailyStatsRec × BuyReply :=
  match sig with
  | none => (none, stats, BuyReply.notFound)
  | some s =>
    if s.status ≠ SignalStatus.PENDING then
      (some s, stats, BuyReply.alreadyProcessed s.status)
    else
      let current_price := ticker.getD s.price
      let price_diff := (current_price - s.price) / s.price
      if price_diff > 1 / 100 then
        (some { s with status := SignalStatus.EXPIRED }, stats,
         BuyReply.priceMoved price_diff)
      else
        (some { s with status := SignalStatus.ACCEPTED, decided_at := some now },
         { stats with signals_accepted := stats.signals_accepted + 1 },
         BuyReply.accepted)

/-- handle_skip_signal (src/telegram/handlers.py, lines 482-500): a
missing or already decided signal is left untouched; a PENDING one is
rejected, decided_at is set and the daily counter incremented. -/
def handle_skip_signal (sig : Option SignalRec) (stats : DailyStatsRec) (now : ℕ) :
    Option SignalRec × DailyStatsRec :=
  match sig with
  | none => (none, stats)
  | some s =>
    if s.status ≠ SignalStatus.PENDING then (some s, stats)
    else
      (some { s with status := SignalStatus.REJECTED, decided_at := some now },
       { stats with signals_rejected := stats.signals_rejected + 1 })

/-- Manual preset modes of the adaptive controller (main.py). -/
inductive ManualMode where
  | soft
  | normal
  | hard
deriving DecidableEq, Repr

/-- MAX_RISK_LEVEL from main.py. -/
def MAX_RISK_LEVEL : ℤ := 3

/-- MIN_RISK_LEVEL from main.py. -/
def MIN_RISK_LEVEL : ℤ := -3

/-- MIN_TRADES_BEFORE_AUTO from main.py. -/
def MIN_TRADES_BEFORE_AUTO : ℕ := 5

/-- Per-symbol adaptive risk state (ADAPTIVE_STATE entries in main.py);
last_pnls is the rolling deque with maxlen 20, most recent last. -/
structure AdaptiveSt where
  risk_level : ℤ
  manual_mode : Option ManualMode
  trades_in_manual_mode : ℕ
  last_pnls : List ℚ
deriving DecidableEq, Repr

/-- Appending to a deque with maxlen 20. -/
def appendBounded (l : List ℚ) (x : ℚ) : List ℚ :=
  let l' := l ++ [x]
  if l'.length > 20 then l'.drop (l'.length - 20) else l'

/-- adaptive_on_trade from main.py (lines 369-403): the P&L percentage is
appended to the rolling window first; non-sell trade types change nothing
else; under a manual mode the trade only counts toward the auto
threshold; otherwise the risk level is stepped, bounded, once on this
trade's P&L and possibly once more on the trailing five-trade average. -/
def adaptive_on_trade (st : AdaptiveSt) (isSell : Bool) (pnl_pct : ℚ) : AdaptiveSt :=
  let pnls := appendBounded st.last_pnls pnl_pct
  let st1 := { st with last_pnls := pnls }
  if !isSell then st1
  else
    match st1.manual_mode with
    | some _ =>
      let trades := st1.trades_in_manual_mode + 1
      if MIN_TRADES_BEFORE_AUTO ≤ trades then
        { st1 with trades_in_manual_mode := trades, manual_mode := none }
      else { st1 with trades_in_manual_mode := trades }
    | none =>
      let rl0 := st1.risk_level
      let rl1 :=
        if pnl_pct ≤ -(3 / 10) then min (rl0 + 1) MAX_RISK_LEVEL
        else if pnl_pct ≥ 1 / 2 then max (rl0 - 1) MIN_RISK_LEVEL
        else rl0
      let rl2 :=
        if 5 ≤ pnls.length then
          let last5 := pnls.drop (pnls.length - 5)
          let avg5 := last5.sum / 5
          if avg5 < -(1 / 5) then min (rl1 + 1) MAX_RISK_LEVEL
          else if avg5 > 1 / 2 then max (rl1 - 1) MIN_RISK_LEVEL
          else rl1
        else rl1
      { st1 with risk_level := rl2 }

/-- The notional recorded on the buy trade of an opened outcome. -/
def BuyOutcome.tradeValue : BuyOutcome → Option ℚ
  | .opened _ t => some t.value_usdt
  | _ => none

/-- _update_trailing only writes the high-water mark and trailing stop. -/
theorem update_trailing_eq (p : Position) (x : ℚ) :
    ∃ mp ts, update_trailing p x = { p with max_price := mp, trailing_stop := ts } := by
  simp only [update_trailing]
  rcases p.max_price with _ | m <;> rcases p.trailing_stop with _ | t <;>
    repeat' first
      | exact ⟨_, _, rfl⟩
      | split

/-- _update_trailing does not change the remaining amount. -/
theorem update_trailing_current_amount (p : Position) (x : ℚ) :
    (update_trailing p x).current_amount = p.current_amount := by
  obtain ⟨mp, ts, h⟩ := update_trailing_eq p x
  rw [h]

/-- _update_trailing does not change the position status. -/
theorem update_trailing_status (p : Position) (x : ℚ) :
    (update_trailing p x).status = p.status := by
  obtain ⟨mp, ts, h⟩ := update_trailing_eq p x
  rw [h]

/-- execute_sell succeeds on a non-closed position when the gateway
accepts the order, and its trade carries the clamped amount. -/
theorem execute_sell_spec (p : Position) (a : ℚ) (r : Reason) (env : Env)
    (hst : p.status.isClosed = false) (hok : env.sellOk r = true) :
    ∃ t p', execute_sell p a r env = some (t, p') ∧
      t.reason = r ∧ t.amount = min a p.current_amount ∧
      p'.current_amount = p.current_amount - min a p.current_amount := by
  simp only [execute_sell, hst, hok, Bool.false_eq_true, if_false, if_true]
  split
  · exact ⟨_, _, rfl, rfl, rfl, rfl⟩
  · split
    · exact ⟨_, _, rfl, rfl, rfl, rfl⟩
    · split
      · exact ⟨_, _, rfl, rfl, rfl, rfl⟩
      · exact ⟨_, _, rfl, rfl, rfl, rfl⟩

/-- Whenever execute_sell returns a trade, the sold amount is the
requested amount clamped to the remaining amount, and the remaining
amount decreases by exactly the sold amount. -/
theorem execute_sell_some_amount (p : Position) (a : ℚ) (r : Reason) (env : Env)
    (t : TradeRec) (p' : Position) (h : execute_sell p a r env = some (t, p')) :
    t.amount = min a p.current_amount ∧
    p'.current_amount = p.current_amount - min a p.current_amount := by
  simp only [execute_sell] at h
  split at h
  · exact absurd h (by simp)
  · split at h
    · split at h
      · rw [Option.some.injEq, Prod.mk.injEq] at h
        obtain ⟨ht, hp⟩ := h
        subst ht; subst hp
        exact ⟨rfl, rfl⟩
      · split at h
        · rw [Option.some.injEq, Prod.mk.injEq] at h
          obtain ⟨ht, hp⟩ := h
          subst ht; subst hp
          exact ⟨rfl, rfl⟩
        · split at h
          · rw [Option.some.injEq, Prod.mk.injEq] at h
            obtain ⟨ht, hp⟩ := h
            subst ht; subst hp
            exact ⟨rfl, rfl⟩
          · rw [Option.some.injEq, Prod.mk.injEq] at h
            obtain ⟨ht, hp⟩ := h
            subst ht; subst hp
            exact ⟨rfl, rfl⟩
    · exact absurd h (by simp)

/-- Over a sequence of sells the remaining amount never increases and
never becomes negative, provided every requested amount is nonnegative. -/
theorem applySells_le (p : Position) (calls : List (ℚ × Reason × Env))
    (hc : 0 ≤ p.current_amount) (ha : ∀ c ∈ calls, 0 ≤ c.1) :
    (applySells p calls).current_amount ≤ p.current_amount ∧
    0 ≤ (applySells p calls).current_amount := by
  induction calls generalizing p with
  | nil => exact ⟨le_refl _, hc⟩
  | cons c tl ih =>
    have hc0 : 0 ≤ c.1 := ha c (List.mem_cons_self _ _)
    have htl : ∀ d ∈ tl, 0 ≤ d.1 := fun d hd => ha d (List.mem_cons_of_mem _ hd)
    rcases hres : execute_sell p c.1 c.2.1 c.2.2 with _ | ⟨t, p'⟩
    · simp only [applySells, List.foldl_cons, hres]
      exact ih p hc htl
    · obtain ⟨-, hp'⟩ := execute_sell_some_amount p c.1 c.2.1 c.2.2 t p' hres
      have h2 : 0 ≤ p'.current_amount := by
        rw [hp']; exact sub_nonneg.mpr (min_le_right _ _)
      have h1 : p'.current_amount ≤ p.current_amount := by
        rw [hp']; exact sub_le_self _ (le_min hc0 hc)
      simp only [applySells, List.foldl_cons, hres]
      obtain ⟨ih1, ih2⟩ := ih p' h2 htl
      exact ⟨le_trans (by simpa [applySells] using ih1) h1,
             by simpa [applySells] using ih2⟩

/-- A concrete open position used by witnesses and scenario runs:
entry 100, amount 100, stop loss 96, TP1 at 105, TP2 at 110. -/
def examplePos : Position :=
  { entry_price := 100, entry_amount := 100, entry_value_usdt := 10000
    current_amount := 100, realized_pnl := 0, stop_loss := 96, tp1 := 105, tp2 := 110
    trailing_stop := none, max_price := none, status := PositionStatus.OPEN
    close_price := none, close_reason := none, total_pnl_usdt := none
    total_pnl_pct := none }

/-- An environment with ample balance, the given ticker price and a
gateway that accepts every order. -/
def envAt (price : ℚ) : Env :=
  { balanceTotal := some 100, ticker := some price, sellOk := fun _ => true }

/-- The trade produced by selling 30 units of examplePos at 106. -/
def c2TradeOut : TradeRec :=
  { side := Side.SELL, price := 106, amount := 30, value_usdt := 3180
    reason := Reason.TP1, pnl_usdt := some 180, pnl_pct := some 6 }

/-- The position left after selling 30 units of examplePos at 106. -/
def c2PosOut : Position :=
  { examplePos with
    current_amount := 70, realized_pnl := 180, status := PositionStatus.PARTIAL_TP1 }

/-- C2: for every call to execute_sell with a nonnegative requested
amount on a position with nonnegative remaining amount, the amount sold
is the requested amount clamped to the remaining amount, so the
remaining amount never increases and never becomes negative; over any
sequence of sells it is non-increasing. -/
theorem C2_sell_clamped_monotone :
    (∀ (p : Position) (a : ℚ) (r : Reason) (env : Env) (t : TradeRec) (p' : Position),
        0 ≤ a → 0 ≤ p.current_amount →
        execute_sell p a r env = some (t, p') →
        t.amount = min a p.current_amount ∧
        p'.current_amount ≤ p.current_amount ∧ 0 ≤ p'.current_amount) ∧
    ∀ (p : Position) (calls : List (ℚ × Reason × Env)),
      0 ≤ p.current_amount → (∀ c ∈ calls, 0 ≤ c.1) →
      (applySells p calls).current_amount ≤ p.current_amount ∧
      0 ≤ (applySells p calls).current_amount := by
  refine ⟨fun p a r env t p' ha hc h => ?_, fun p calls hc ha => applySells_le p calls hc ha⟩
  obtain ⟨ht, hp'⟩ := execute_sell_some_amount p a r env t p' h
  refine ⟨ht, ?_, ?_⟩
  · rw [hp']; exact sub_le_self _ (le_min ha hc)
  · rw [hp']; exact sub_nonneg.mpr (min_le_right _ _)

/-- Witness for C2: selling 30 out of 100 units of examplePos at price
106 yields a trade over 30 units and leaves 70 behind. -/
theorem C2_sell_clamped_monotone_witness :
    0 ≤ (30 : ℚ) ∧ 0 ≤ examplePos.current_amount ∧
    execute_sell examplePos 30 Reason.TP1 (envAt 106) = some (c2TradeOut, c2PosOut) ∧
    c2TradeOut.amount = min 30 examplePos.current_amount ∧
    c2PosOut.current_amount ≤ examplePos.current_amount ∧
    0 ≤ c2PosOut.current_amount := by
  have h : execute_sell examplePos 30 Reason.TP1 (envAt 106) = some (c2TradeOut, c2PosOut) := by
    norm_num [execute_sell, examplePos, envAt, c2TradeOut, c2PosOut, PositionStatus.isClosed]
  have h2 := C2_sell_clamped_monotone.1 examplePos 30 Reason.TP1 (envAt 106)
    c2TradeOut c2PosOut (by norm_num) (by norm_num [examplePos]) h
  exact ⟨by norm_num, by norm_num [examplePos], h, h2.1, h2.2.1, h2.2.2⟩

/-- C4: when the exchange balance of the base asset is below the dust
threshold, the tick finalizes the position as closed manually with a
synthesized MANUAL_EXTERNAL sell trade over the full tracked amount, and
the stop-loss and take-profit levels are never consulted: the emitted
trade and action are the same for every choice of those levels. -/
theorem C4_reconciliation_precedes_levels (p : Position) (env : Env)
    (h : env.balanceTotal.getD 0 < dustThreshold p.current_amount) :
    (check_position p env).1.status = PositionStatus.CLOSED_MANUAL ∧
    (∃ t a, (check_position p env).2 = some (t, a) ∧
      t.reason = Reason.MANUAL_EXTERNAL ∧ t.side = Side.SELL ∧
      t.amount = p.current_amount ∧ a.kind = ActionKind.SYNC_CLOSED ∧
      a.amount = p.current_amount) ∧
    ∀ sl u1 u2 : ℚ,
      (check_position { p with stop_loss := sl, tp1 := u1, tp2 := u2 } env).2
        = (check_position p env).2 := by
  refine ⟨?_, ?_, ?_⟩
  · rw [check_position, if_pos h]
  · rw [check_position, if_pos h]
    exact ⟨_, _, rfl, rfl, rfl, rfl, rfl, rfl⟩
  · intro sl u1 u2
    rw [check_position, check_position]
    rw [if_pos h, if_pos h]

/-- The claimed scenario position of C4: tracked amount 50. -/
def c4Pos : Position :=
  { examplePos with entry_amount := 50, entry_value_usdt := 5000, current_amount := 50 }

/-- The claimed scenario environment of C4: the exchange reports 2 units. -/
def c4Env : Env :=
  { balanceTotal := some 2, ticker := some 100, sellOk := fun _ => true }

/-- Witness for C4: a position tracked at 50 units with an exchange
balance of 2 is finalized as closed manually with trade and action
amount 50. -/
theorem C4_reconciliation_precedes_levels_witness :
    c4Env.balanceTotal.getD 0 < dustThreshold c4Pos.current_amount ∧
    c4Pos.current_amount = 50 ∧ c4Env.balanceTotal = some 2 ∧
    (check_position c4Pos c4Env).1.status = PositionStatus.CLOSED_MANUAL ∧
    ((check_position c4Pos c4Env).2.map
        (fun r => (r.1.reason, r.1.amount, r.2.kind, r.2.amount))
      = some (Reason.MANUAL_EXTERNAL, 50, ActionKind.SYNC_CLOSED, 50)) := by
  have hlt : c4Env.balanceTotal.getD 0 < dustThreshold c4Pos.current_amount := by
    norm_num [c4Env, c4Pos, examplePos, dustThreshold]
  obtain ⟨h1, ⟨t, a, h2, h3, h4, h5, h6, h7⟩, -⟩ :=
    C4_reconciliation_precedes_levels c4Pos c4Env hlt
  refine ⟨hlt, by norm_num [c4Pos, examplePos], rfl, h1, ?_⟩
  rw [h2]
  simp only [Option.map_some', h3, h5, h6, h7]
  norm_num [c4Pos, examplePos]

/-- The C1 position: stop loss 100 and TP1 at 90, so a price of 95
satisfies both the stop-loss and the TP1 condition. -/
def c1CxPos : Position :=
  { examplePos with stop_loss := 100, tp1 := 90 }

/-- A gateway that rejects the stop-loss sell order but accepts every
other order. -/
def c1SellOk : Reason → Bool
  | .SL => false
  | _ => true

/-- The C1 counterexample environment: price 95, stop-loss order fails. -/
def c1CxEnv : Env :=
  { balanceTotal := some 1000, ticker := some 95, sellOk := c1SellOk }

/-- C1 is refuted as stated: on a tick whose price satisfies both the
stop-loss and the TP1 condition, the code checks the stop loss first,
but when the stop-loss sell order placement fails it falls through and
emits the take-profit action on the same tick. -/
theorem C1_counterexample :
    (95 : ℚ) ≤ c1CxPos.stop_loss ∧ c1CxPos.tp1 ≤ (95 : ℚ) ∧
    c1CxPos.status = PositionStatus.OPEN ∧ c1CxEnv.ticker = some 95 ∧
    ((check_position c1CxPos c1CxEnv).2.map (fun r => (r.1.reason, r.2.kind))
      = some (Reason.TP1, ActionKind.TP1)) := by
  refine ⟨by norm_num [c1CxPos, examplePos], by norm_num [c1CxPos, examplePos], rfl, rfl, ?_⟩
  norm_num +decide [check_position, check_position_price, update_trailing, execute_sell,
    dustThreshold, tradeAction, tp1_close_pct, c1CxPos, c1CxEnv, c1SellOk, examplePos,
    PositionStatus.isClosed, get_close_status]

/-- C1 (amended): on a tick that passes the reconciliation check, with a
ticker price at or below the stop loss and a position in an open or
partial-TP1 state, the emitted action is the stop-loss close over the
full remaining amount, provided the stop-loss sell order placement
succeeds; only a failed stop-loss order can let a take-profit action
through on the same tick. -/
theorem C1_sl_precedence_amended (p : Position) (env : Env) (P : ℚ)
    (hbal : ¬ env.balanceTotal.getD 0 < dustThreshold p.current_amount)
    (htick : env.ticker = some P)
    (hsl : P ≤ p.stop_loss)
    (hok : env.sellOk Reason.SL = true)
    (hopen : p.status = PositionStatus.OPEN ∨ p.status = PositionStatus.PARTIAL_TP1) :
    ∃ t, (check_position p env).2 = some (t, tradeAction ActionKind.SL t) ∧
      t.reason = Reason.SL ∧ t.amount = p.current_amount := by
  have hstat : (update_trailing p P).status = p.status := update_trailing_status p P
  have hcls : (update_trailing p P).status.isClosed = false := by
    rw [hstat]; rcases hopen with h | h <;> rw [h] <;> rfl
  obtain ⟨t, p', heq, hr, hamt, -⟩ :=
    execute_sell_spec (update_trailing p P) p.current_amount Reason.SL env hcls hok
  refine ⟨t, ?_, hr, ?_⟩
  · simp only [check_position]
    rw [if_neg hbal, htick]
    show (check_position_price p (update_trailing p P) P env).2 = _
    simp only [check_position_price]
    rw [if_pos hsl, heq]
  · rw [hamt, update_trailing_current_amount, min_self]

/-- Witness for the amended C1: with the same both-conditions position
but a gateway that accepts the stop-loss order, the emitted action is
the stop-loss close over the full 100 units. -/
theorem C1_sl_precedence_amended_witness :
    (¬ (envAt 95).balanceTotal.getD 0 < dustThreshold c1CxPos.current_amount) ∧
    (envAt 95).ticker = some 95 ∧ (95 : ℚ) ≤ c1CxPos.stop_loss ∧
    (envAt 95).sellOk Reason.SL = true ∧ c1CxPos.status = PositionStatus.OPEN ∧
    ((check_position c1CxPos (envAt 95)).2.map
        (fun r => (r.1.reason, r.1.amount, r.2.kind))
      = some (Reason.SL, 100, ActionKind.SL)) := by
  obtain ⟨t, h1, h2, h3⟩ :=
    C1_sl_precedence_amended c1CxPos (envAt 95) 95
      (by norm_num [envAt, dustThreshold, c1CxPos, examplePos])
      rfl (by norm_num [c1CxPos, examplePos]) rfl (Or.inl rfl)
  refine ⟨by norm_num [envAt, dustThreshold, c1CxPos, examplePos], rfl,
    by norm_num [c1CxPos, examplePos], rfl, rfl, ?_⟩
  rw [h1]
  simp only [Option.map_some', h2, h3, tradeAction]
  norm_num [c1CxPos, examplePos]

/-- The position after the first scenario tick at 106: 30 units sold at
TP1, 70 remaining. -/
def c6Pos1 : Position :=
  { examplePos with
    current_amount := 70, realized_pnl := 180
    status := PositionStatus.PARTIAL_TP1, max_price := some 106 }

/-- The position after the second scenario tick at 111: 30 more units
sold at TP2, 40 remaining, trailing stop still unset. -/
def c6Pos2 : Position :=
  { examplePos with
    current_amount := 40, realized_pnl := 510
    status := PositionStatus.PARTIAL_TP2, max_price := some 111 }

/-- The position after a third tick at 111: the trailing stop is armed
at 97 percent of the high-water mark. -/
def c6Pos3 : Position :=
  { examplePos with
    current_amount := 40, realized_pnl := 510
    status := PositionStatus.PARTIAL_TP2, max_price := some 111
    trailing_stop := some (111 * (97 / 100)) }

/-- First scenario tick: TP1 fires at 106. -/
theorem c6_step1 : (check_position examplePos (envAt 106)).1 = c6Pos1 := by
  norm_num +decide [check_position, check_position_price, update_trailing, execute_sell,
    dustThreshold, tp1_close_pct, envAt, examplePos, c6Pos1,
    PositionStatus.isClosed, get_close_status]

/-- Second scenario tick: TP2 fires at 111; the trailing stop is not
armed because _update_trailing ran while the status was still
PARTIAL_TP1. -/
theorem c6_step2 : (check_position c6Pos1 (envAt 111)).1 = c6Pos2 := by
  norm_num +decide [check_position, check_position_price, update_trailing, execute_sell,
    dustThreshold, tp1_close_pct, tp2_close_pct, envAt, examplePos, c6Pos1, c6Pos2,
    PositionStatus.isClosed, get_close_status]

/-- Third scenario tick: _update_trailing now sees PARTIAL_TP2 and arms
the trailing stop; the trailing check itself reads the stale snapshot
(still unset) and returns no action. -/
theorem c6_step3 : (check_position c6Pos2 (envAt 111)).1 = c6Pos3 := by
  norm_num +decide [check_position, check_position_price, update_trailing, execute_sell,
    dustThreshold, tp1_close_pct, tp2_close_pct, envAt, examplePos, c6Pos2, c6Pos3,
    PositionStatus.isClosed, get_close_status]

/-- The scenario run after one tick. -/
theorem c6_run1 : runTicks examplePos [envAt 106] = c6Pos1 := c6_step1

/-- The scenario run after two ticks. -/
theorem c6_run2 : runTicks examplePos [envAt 106, envAt 111] = c6Pos2 := by
  show (check_position (check_position examplePos (envAt 106)).1 (envAt 111)).1 = c6Pos2
  rw [c6_step1, c6_step2]

/-- The scenario run after three ticks. -/
theorem c6_run3 : runTicks examplePos [envAt 106, envAt 111, envAt 111] = c6Pos3 := by
  show (check_position ((check_position (check_position examplePos (envAt 106)).1
      (envAt 111)).1) (envAt 111)).1 = c6Pos3
  rw [c6_step1, c6_step2, c6_step3]

/-- C6 counterexample: after the two scenario ticks at 106 and 111 the
remaining amount is 40 percent of the entry amount and the status is
PARTIAL_TP2 as claimed, but the trailing stop is not armed: it is still
unset, refuting the claim that it is armed below 111 after the second
tick. -/
theorem C6_counterexample :
    (runTicks examplePos [envAt 106, envAt 111]).current_amount
        = examplePos.entry_amount * (40 / 100) ∧
    (runTicks examplePos [envAt 106, envAt 111]).status = PositionStatus.PARTIAL_TP2 ∧
    (runTicks examplePos [envAt 106, envAt 111]).trailing_stop = none := by
  rw [c6_run2]
  norm_num [c6Pos2, examplePos]

/-- C6 (amended): with entry 100, TP1 at 105, TP2 at 110 and 30 percent
closes, the price path 106 then 111 leaves 70 percent remaining in
PARTIAL_TP1 after the first tick and 40 percent remaining in PARTIAL_TP2
after the second tick, but the trailing stop is not yet armed then: it
is armed one tick later, at 97 percent of the high-water mark 111, a
value below 111. -/
theorem C6_amended_scenario :
    (runTicks examplePos [envAt 106]).current_amount
        = examplePos.entry_amount * (70 / 100) ∧
    (runTicks examplePos [envAt 106]).status = PositionStatus.PARTIAL_TP1 ∧
    (runTicks examplePos [envAt 106, envAt 111]).current_amount
        = examplePos.entry_amount * (40 / 100) ∧
    (runTicks examplePos [envAt 106, envAt 111]).status = PositionStatus.PARTIAL_TP2 ∧
    (runTicks examplePos [envAt 106, envAt 111]).trailing_stop = none ∧
    (runTicks examplePos [envAt 106, envAt 111]).max_price = some 111 ∧
    (runTicks examplePos [envAt 106, envAt 111, envAt 111]).trailing_stop
        = some (111 * (97 / 100)) ∧
    (111 * (97 / 100) : ℚ) < 111 := by
  rw [c6_run1, c6_run2, c6_run3]
  norm_num [c6Pos1, c6Pos2, c6Pos3, examplePos]

/-- An accepted signal with a mild stop loss, so the risk cap does not
fire: detection price 0.5, entry 0.5, stop 0.4975. -/
def c3Sig : SignalRec :=
  { price := 1 / 2, entry_price := 1 / 2, stop_loss := 199 / 400, tp1 := 11 / 20
    tp2 := 3 / 5, status := SignalStatus.ACCEPTED, decided_at := some 0 }

/-- C3 is refuted as stated: an order that is placed but has fill 0
still creates the Position and Trade records and marks the signal
EXECUTED, and the recorded amount is the requested 20 coins, not the
filled 0. -/
theorem C3_counterexample :
    (execute_buy_from_signal c3Sig 100 none (some { filled := 0 })).1.isOpened = true ∧
    (execute_buy_from_signal c3Sig 100 none (some { filled := 0 })).2
      = SignalStatus.EXECUTED ∧
    (execute_buy_from_signal c3Sig 100 none (some { filled := 0 })).1.tradeAmount
      = some 20 ∧
    (0 : ℚ) ≠ 20 := by
  refine ⟨?_, ?_, ?_, by norm_num⟩ <;>
    norm_num +decide [execute_buy_from_signal, buyTrade, buyPosition, positionSizeUsdt,
      baseNotional, position_size_pct, max_risk_per_trade, c3Sig,
      BuyOutcome.isOpened, BuyOutcome.tradeAmount]

/-- C3 (amended): on an accepted signal with sufficient balance, a
failed order placement creates nothing and leaves the signal ACCEPTED,
while any returned order object, whatever its fill, creates the Position
and Trade records with the requested amount and marks the signal
EXECUTED. -/
theorem C3_amended_open_on_order_object (s : SignalRec) (usdt_free : ℚ)
    (override : Option ℚ) (hs : s.status = SignalStatus.ACCEPTED)
    (hf : ¬ usdt_free < 10) :
    execute_buy_from_signal s usdt_free override none
      = (BuyOutcome.orderFailed, SignalStatus.ACCEPTED) ∧
    ∀ o : Order,
      execute_buy_from_signal s usdt_free override (some o)
        = (BuyOutcome.opened (buyPosition s usdt_free override)
            (buyTrade s usdt_free override), SignalStatus.EXECUTED) ∧
      (buyTrade s usdt_free override).amount
        = positionSizeUsdt usdt_free override s.entry_price s.stop_loss
            / s.entry_price := by
  have h1 : ¬ (s.status ≠ SignalStatus.ACCEPTED) := by simp [hs]
  refine ⟨?_, fun o => ⟨?_, rfl⟩⟩
  · simp only [execute_buy_from_signal]
    rw [if_neg h1, if_neg hf, hs]
  · simp only [execute_buy_from_signal]
    rw [if_neg h1, if_neg hf]

/-- Witness for the amended C3 at the concrete signal: no order means no
position and status ACCEPTED; an order object means an opened position
and status EXECUTED. -/
theorem C3_amended_open_on_order_object_witness :
    c3Sig.status = SignalStatus.ACCEPTED ∧ ¬ (100 : ℚ) < 10 ∧
    execute_buy_from_signal c3Sig 100 none none
      = (BuyOutcome.orderFailed, SignalStatus.ACCEPTED) ∧
    execute_buy_from_signal c3Sig 100 none (some { filled := 5 })
      = (BuyOutcome.opened (buyPosition c3Sig 100 none) (buyTrade c3Sig 100 none),
         SignalStatus.EXECUTED) := by
  obtain ⟨h1, h2⟩ := C3_amended_open_on_order_object c3Sig 100 none rfl (by norm_num)
  exact ⟨rfl, by norm_num, h1, (h2 { filled := 5 }).1⟩

/-- The base notional is nonnegative for a nonnegative free balance. -/
theorem baseNotional_nonneg (u : ℚ) (o : Option ℚ) (hu : 0 ≤ u) :
    0 ≤ baseNotional u o := by
  rcases o with _ | v
  · exact mul_nonneg hu (by norm_num [position_size_pct])
  · simp only [baseNotional]
    split
    · next hv => exact le_min hv.le hu
    · exact mul_nonneg hu (by norm_num [position_size_pct])

/-- The base notional never exceeds the free balance. -/
theorem baseNotional_le (u : ℚ) (o : Option ℚ) (hu : 0 ≤ u) :
    baseNotional u o ≤ u := by
  have hpct : u * position_size_pct ≤ u := by
    norm_num [position_size_pct]
    linarith
  rcases o with _ | v
  · exact hpct
  · simp only [baseNotional]
    split
    · exact min_le_right _ _
    · exact hpct

/-- The accepted signal of the C5 scenario: entry 100, stop 95, so the
per-trade risk fraction is 5 percent, above the 1 percent cap. -/
def c5Sig : SignalRec :=
  { price := 100, entry_price := 100, stop_loss := 95, tp1 := 105, tp2 := 110
    status := SignalStatus.ACCEPTED, decided_at := some 0 }

/-- C5 is refuted as stated: with an override of 20 USDT, a free balance
of 1000 and a risk fraction above the cap, the notional is not the
clamped override 20 but 200, because the risk cap recomputes it from the
free balance and discards the override. -/
theorem C5_counterexample :
    (0 : ℚ) ≤ 1000 ∧ ¬ (1000 : ℚ) < 10 ∧ min (20 : ℚ) 1000 = 20 ∧
    positionSizeUsdt 1000 (some 20) c5Sig.entry_price c5Sig.stop_loss = 200 ∧
    (200 : ℚ) ≠ 20 ∧
    (execute_buy_from_signal c5Sig 1000 (some 20) (some { filled := 2 })).1.tradeValue
      = some 200 := by
  refine ⟨by norm_num, by norm_num, by norm_num, ?_, by norm_num, ?_⟩
  · norm_num [positionSizeUsdt, baseNotional, max_risk_per_trade, c5Sig]
  · norm_num +decide [execute_buy_from_signal, buyTrade, buyPosition, positionSizeUsdt,
      baseNotional, max_risk_per_trade, position_size_pct, c5Sig, BuyOutcome.tradeValue]

/-- C5 (amended): a free balance under the 10 USDT floor places no order
and creates no position; when the risk fraction is within the cap the
notional is the override clamped to the free balance (or the fixed
fraction of the balance without an override); when the risk fraction
exceeds the cap the notional is replaced by the cap-derived value,
which can differ from the override; in all cases the final notional
satisfies the per-trade risk bound. -/
theorem C5_sizing_amended (s : SignalRec) (usdt_free : ℚ) (override : Option ℚ)
    (orderResult : Option Order) (hfree : 0 ≤ usdt_free) :
    (s.status = SignalStatus.ACCEPTED → usdt_free < 10 →
      execute_buy_from_signal s usdt_free override orderResult
        = (BuyOutcome.insufficientFunds, SignalStatus.ACCEPTED)) ∧
    ((s.entry_price - s.stop_loss) / s.entry_price ≤ max_risk_per_trade →
      positionSizeUsdt usdt_free override s.entry_price s.stop_loss
        = baseNotional usdt_free override) ∧
    (s.entry_price - s.stop_loss) / s.entry_price
        * positionSizeUsdt usdt_free override s.entry_price s.stop_loss
      ≤ max_risk_per_trade * usdt_free := by
  refine ⟨fun hs h10 => ?_, fun hle => ?_, ?_⟩
  · have h1 : ¬ (s.status ≠ SignalStatus.ACCEPTED) := by simp [hs]
    simp only [execute_buy_from_signal]
    rw [if_neg h1, if_pos h10, hs]
  · simp only [positionSizeUsdt]
    rw [if_neg (not_lt.mpr hle)]
  · simp only [positionSizeUsdt]
    split
    · next hgt =>
      have hrpos : (0 : ℚ) < (s.entry_price - s.stop_loss) / s.entry_price :=
        lt_trans (by norm_num [max_risk_per_trade]) hgt
      have hne : (s.entry_price - s.stop_loss) / s.entry_price ≠ 0 := ne_of_gt hrpos
      have heq : (s.entry_price - s.stop_loss) / s.entry_price
          * (usdt_free * max_risk_per_trade
              / ((s.entry_price - s.stop_loss) / s.entry_price))
          = max_risk_per_trade * usdt_free := by
        rw [mul_comm, div_mul_cancel₀ _ hne, mul_comm]
      exact le_of_eq heq
    · next hng =>
      have hle : (s.entry_price - s.stop_loss) / s.entry_price ≤ max_risk_per_trade :=
        not_lt.mp hng
      have h1 : (s.entry_price - s.stop_loss) / s.entry_price
            * baseNotional usdt_free override
          ≤ max_risk_per_trade * baseNotional usdt_free override :=
        mul_le_mul_of_nonneg_right hle (baseNotional_nonneg _ _ hfree)
      have h2 : max_risk_per_trade * baseNotional usdt_free override
          ≤ max_risk_per_trade * usdt_free :=
        mul_le_mul_of_nonneg_left (baseNotional_le _ _ hfree)
          (by norm_num [max_risk_per_trade])
      exact le_trans h1 h2

/-- Witness for the amended C5: a free balance of 5 USDT is under the
floor, so nothing is bought, and the risk bound holds at the concrete
inputs. -/
theorem C5_sizing_amended_witness :
    (0 : ℚ) ≤ 5 ∧
    c5Sig.status = SignalStatus.ACCEPTED ∧ (5 : ℚ) < 10 ∧
    execute_buy_from_signal c5Sig 5 none none
      = (BuyOutcome.insufficientFunds, SignalStatus.ACCEPTED) ∧
    (c5Sig.entry_price - c5Sig.stop_loss) / c5Sig.entry_price
        * positionSizeUsdt 5 none c5Sig.entry_price c5Sig.stop_loss
      ≤ max_risk_per_trade * 5 := by
  obtain ⟨h1, -, h3⟩ := C5_sizing_amended c5Sig 5 none none (by norm_num)
  exact ⟨by norm_num, rfl, by norm_num, h1 rfl (by norm_num), h3⟩

/-- A pending signal detected at price 100. -/
def c7Sig : SignalRec :=
  { price := 100, entry_price := 100, stop_loss := 95, tp1 := 105, tp2 := 110
    status := SignalStatus.PENDING, decided_at := none }

/-- Empty daily statistics. -/
def stats0 : DailyStatsRec := { signals_accepted := 0, signals_rejected := 0 }

/-- C7 is refuted as stated: the drift guard is one-sided.  A current
price of 50, a 50 percent move away from the detection price 100, is
far outside the 1 percent tolerance, yet the accept decision goes
through: the signal is accepted, not expired, because only upward moves
beyond the tolerance expire it. -/
theorem C7_counterexample :
    ((50 : ℚ) - c7Sig.price) / c7Sig.price < -(1 / 100) ∧
    (handle_buy_signal (some c7Sig) (some 50) stats0 7).2.2 = BuyReply.accepted ∧
    (handle_buy_signal (some c7Sig) (some 50) stats0 7).1
      = some { c7Sig with status := SignalStatus.ACCEPTED, decided_at := some 7 } := by
  refine ⟨by norm_num [c7Sig], ?_, ?_⟩ <;>
    norm_num +decide [handle_buy_signal, c7Sig, stats0]

/-- C7 (amended): the drift guard only catches upward moves: when the
current price at decision time is more than 1 percent above the
detection price, a pending signal is force-expired with no state change
beyond its status, and the flow never reaches order placement; downward
moves of any size are accepted. -/
theorem C7_drift_guard_amended (s : SignalRec) (P : ℚ) (stats : DailyStatsRec)
    (now : ℕ) (hp : s.status = SignalStatus.PENDING) (hpos : 0 < s.price)
    (hdrift : s.price * (101 / 100) < P) :
    handle_buy_signal (some s) (some P) stats now
      = (some { s with status := SignalStatus.EXPIRED }, stats,
         BuyReply.priceMoved ((P - s.price) / s.price)) := by
  have h1 : ¬ (s.status ≠ SignalStatus.PENDING) := by simp [hp]
  have h2 : (P - s.price) / s.price > 1 / 100 := by
    rw [gt_iff_lt, lt_div_iff₀ hpos]
    nlinarith
  simp only [handle_buy_signal]
  rw [if_neg h1]
  simp only [Option.getD_some]
  rw [if_pos h2]

/-- Witness for the amended C7: price 102 against detection price 100 is
a rise above 1 percent, so the pending signal is expired. -/
theorem C7_drift_guard_amended_witness :
    c7Sig.status = SignalStatus.PENDING ∧ (0 : ℚ) < c7Sig.price ∧
    c7Sig.price * (101 / 100) < 102 ∧
    handle_buy_signal (some c7Sig) (some 102) stats0 3
      = (some { c7Sig with status := SignalStatus.EXPIRED }, stats0,
         BuyReply.priceMoved ((102 - c7Sig.price) / c7Sig.price)) := by
  refine ⟨rfl, by norm_num [c7Sig], by norm_num [c7Sig], ?_⟩
  exact C7_drift_guard_amended c7Sig 102 stats0 3 rfl
    (by norm_num [c7Sig]) (by norm_num [c7Sig])

/-- C8: a decision applied to a missing signal or to one that is no
longer pending is a no-op: the stored signal, its decision timestamp and
the daily statistics are unchanged, and the buy handler reports the
existing status. -/
theorem C8_decision_noop_on_decided (s : SignalRec) (ticker : Option ℚ)
    (stats : DailyStatsRec) (now : ℕ) (h : s.status ≠ SignalStatus.PENDING) :
    handle_buy_signal (some s) ticker stats now
      = (some s, stats, BuyReply.alreadyProcessed s.status) ∧
    handle_skip_signal (some s) stats now = (some s, stats) ∧
    handle_buy_signal none ticker stats now = (none, stats, BuyReply.notFound) ∧
    handle_skip_signal none stats now = (none, stats) := by
  refine ⟨?_, ?_, rfl, rfl⟩
  · simp only [handle_buy_signal]
    rw [if_pos h]
  · simp only [handle_skip_signal]
    rw [if_pos h]

/-- Witness for C8: a second decision on an already accepted signal
changes nothing. -/
theorem C8_decision_noop_on_decided_witness :
    ({ c7Sig with status := SignalStatus.ACCEPTED } : SignalRec).status
        ≠ SignalStatus.PENDING ∧
    handle_buy_signal (some { c7Sig with status := SignalStatus.ACCEPTED })
        (some 100) stats0 9
      = (some { c7Sig with status := SignalStatus.ACCEPTED }, stats0,
         BuyReply.alreadyProcessed SignalStatus.ACCEPTED) ∧
    handle_skip_signal (some { c7Sig with status := SignalStatus.ACCEPTED }) stats0 9
      = (some { c7Sig with status := SignalStatus.ACCEPTED }, stats0) := by
  have h := C8_decision_noop_on_decided { c7Sig with status := SignalStatus.ACCEPTED }
    (some 100) stats0 9 (by simp)
  exact ⟨by simp, h.1, h.2.1⟩

/-- C10 (implicit): when no exchange is configured or the ticker fetch
fails, the drift guard compares the detection price to itself, so an
accept decision on a pending signal always goes through, whatever the
actual market price; the subsequent buy order is priced at the stale
entry level computed at detection time. -/
theorem C10_no_ticker_always_accepts (s : SignalRec) (stats : DailyStatsRec)
    (now : ℕ) (usdt_free : ℚ) (override : Option ℚ)
    (hp : s.status = SignalStatus.PENDING) :
    handle_buy_signal (some s) none stats now
      = (some { s with status := SignalStatus.ACCEPTED, decided_at := some now },
         { stats with signals_accepted := stats.signals_accepted + 1 },
         BuyReply.accepted) ∧
    (buyTrade { s with status := SignalStatus.ACCEPTED, decided_at := some now }
        usdt_free override).price = s.entry_price := by
  have h1 : ¬ (s.status ≠ SignalStatus.PENDING) := by simp [hp]
  refine ⟨?_, rfl⟩
  simp only [handle_buy_signal]
  rw [if_neg h1]
  simp only [Option.getD_none, sub_self, zero_div]
  rw [if_neg (by norm_num : ¬ (0 : ℚ) > 1 / 100)]

/-- Witness for C10: with a failed ticker fetch the pending signal is
accepted unconditionally. -/
theorem C10_no_ticker_always_accepts_witness :
    c7Sig.status = SignalStatus.PENDING ∧
    handle_buy_signal (some c7Sig) none stats0 5
      = (some { c7Sig with status := SignalStatus.ACCEPTED, decided_at := some 5 },
         { stats0 with signals_accepted := stats0.signals_accepted + 1 },
         BuyReply.accepted) ∧
    (buyTrade { c7Sig with status := SignalStatus.ACCEPTED, decided_at := some 5 }
        100 none).price = c7Sig.entry_price := by
  have h := C10_no_ticker_always_accepts c7Sig stats0 5 100 none rfl
  exact ⟨rfl, h.1, h.2⟩

/-- An automatic-mode adaptive state whose recent window holds four
losses, so the next losing trade triggers both adjustment rules. -/
def c9St : AdaptiveSt :=
  { risk_level := 0, manual_mode := none, trades_in_manual_mode := 0
    last_pnls := [-1, -1, -1, -1] }

/-- A fresh automatic-mode adaptive state. -/
def c9Auto : AdaptiveSt :=
  { risk_level := 0, manual_mode := none, trades_in_manual_mode := 0
    last_pnls := [] }

/-- A closing-trade run in automatic mode: folds adaptive_on_trade over
a list of realized P&L percentages. -/
def adaptiveRun (st : AdaptiveSt) (pnls : List ℚ) : AdaptiveSt :=
  pnls.foldl (fun s x => adaptive_on_trade s true x) st

/-- C9 is refuted as stated: with four recent losses on record, one more
losing trade in automatic mode raises the risk level by two steps in a
single call, once for the trade and once for the five-trade average. -/
theorem C9_counterexample :
    c9St.manual_mode = none ∧ c9St.risk_level = 0 ∧
    (adaptive_on_trade c9St true (-1)).risk_level = 2 ∧
    ¬ ((adaptive_on_trade c9St true (-1)).risk_level - c9St.risk_level ≤ 1) := by
  refine ⟨rfl, rfl, ?_, ?_⟩ <;>
    norm_num [adaptive_on_trade, appendBounded, c9St, MAX_RISK_LEVEL, MIN_RISK_LEVEL,
      List.sum_cons]

/-- C9 (amended): each call of adaptive_on_trade moves the risk level by
at most two steps, one from this trade's P&L and one from the trailing
five-trade average, and the level always stays within the configured
bounds. -/
theorem C9_risk_level_bounded_amended (st : AdaptiveSt) (isSell : Bool) (pnl : ℚ)
    (hlo : MIN_RISK_LEVEL ≤ st.risk_level) (hhi : st.risk_level ≤ MAX_RISK_LEVEL) :
    MIN_RISK_LEVEL ≤ (adaptive_on_trade st isSell pnl).risk_level ∧
    (adaptive_on_trade st isSell pnl).risk_level ≤ MAX_RISK_LEVEL ∧
    (adaptive_on_trade st isSell pnl).risk_level - st.risk_level ≤ 2 ∧
    st.risk_level - (adaptive_on_trade st isSell pnl).risk_level ≤ 2 := by
  rw [MIN_RISK_LEVEL] at hlo
  rw [MAX_RISK_LEVEL] at hhi
  simp only [adaptive_on_trade, MIN_RISK_LEVEL, MAX_RISK_LEVEL]
  cases isSell
  · rw [if_pos (show (!false) = true from rfl)]
    dsimp only
    exact ⟨hlo, hhi, by omega, by omega⟩
  · rw [if_neg (show ¬ (!true) = true by simp)]
    cases st.manual_mode
    · dsimp only
      simp only [min_def, max_def]
      split_ifs <;> omega
    · dsimp only
      split_ifs <;>
        exact ⟨hlo, hhi, show st.risk_level - st.risk_level ≤ 2 by omega,
          show st.risk_level - st.risk_level ≤ 2 by omega⟩

/-- Witness for the amended C9, including the five-trade scenario: after
P&L path -1, -0.5, +0.2, -0.4, +0.1 the level has moved up (to the
bound 3) and never exceeds it; at the concrete double-step input the
level lands at 2, within bounds and within two steps. -/
theorem C9_risk_level_bounded_amended_witness :
    MIN_RISK_LEVEL ≤ c9St.risk_level ∧ c9St.risk_level ≤ MAX_RISK_LEVEL ∧
    MIN_RISK_LEVEL ≤ (adaptive_on_trade c9St true (-1)).risk_level ∧
    (adaptive_on_trade c9St true (-1)).risk_level ≤ MAX_RISK_LEVEL ∧
    (adaptive_on_trade c9St true (-1)).risk_level - c9St.risk_level ≤ 2 ∧
    c9St.risk_level - (adaptive_on_trade c9St true (-1)).risk_level ≤ 2 ∧
    (adaptiveRun c9Auto [-1, -(1/2), 1/5, -(2/5), 1/10]).risk_level = MAX_RISK_LEVEL ∧
    c9Auto.risk_level < (adaptiveRun c9Auto [-1, -(1/2), 1/5, -(2/5), 1/10]).risk_level := by
  have h := C9_risk_level_bounded_amended c9St true (-1) (by norm_num [c9St, MIN_RISK_LEVEL])
    (by norm_num [c9St, MAX_RISK_LEVEL])
  refine ⟨by norm_num [c9St, MIN_RISK_LEVEL], by norm_num [c9St, MAX_RISK_LEVEL],
    h.1, h.2.1, h.2.2.1, h.2.2.2, ?_, ?_⟩ <;>
    norm_num [adaptiveRun, adaptive_on_trade, appendBounded, c9Auto,
      MAX_RISK_LEVEL, MIN_RISK_LEVEL, List.sum_cons]
